import Mathlib

/-!
Verification of the `99tech_challenge` repository.

Part I embeds the three `sum_to_n` implementations of problem 4
(`src/unnamed/part_000`).  Part II embeds the resource CRUD subsystem of
problem 5: the repository layer `ResourceModel` (backed by a relational
store, modelled here as a list of rows with SQL `ILIKE` pattern
semantics), the service layer `ResourceService` with its validation
rules, the API-key middleware and the central error handler.

JavaScript integer arithmetic on the small values involved is exact, so
numbers are modelled as `Int`/`Nat`; timestamps are abstract `Nat`
instants passed explicitly where the code reads the current time.
-/

set_option maxRecDepth 40000

/-! ## Part I: problem 4, `sum_to_n` -/

/-- The accumulator loop of `sum_to_n_a`: after iterating `i` from `1`
to `k` the accumulated sum is `sumLoop k`. -/
def sumLoop : Nat → Int
  | 0 => 0
  | k + 1 => sumLoop k + (k + 1)

/-- `sum_to_n_a` (iterative): returns `0` for `n <= 0`, otherwise sums
`1..n` with a loop. -/
def sum_to_n_a (n : Int) : Int :=
  if n ≤ 0 then 0 else sumLoop n.toNat

/-- `sum_to_n_b` (recursive): `0` for `n <= 0`, `1` for `n = 1`,
otherwise `n + sum_to_n_b (n-1)`. -/
def sum_to_n_b (n : Int) : Int :=
  if n ≤ 0 then 0
  else if n = 1 then 1
  else n + sum_to_n_b (n - 1)
termination_by n.toNat
decreasing_by omega

/-- `sum_to_n_c` (Gauss formula): `0` for `n <= 0`, otherwise
`n * (n + 1) / 2` (exact division). -/
def sum_to_n_c (n : Int) : Int :=
  if n ≤ 0 then 0 else n * (n + 1) / 2

theorem sumLoop_gauss (k : Nat) : 2 * sumLoop k = k * (k + 1) := by
  induction k with
  | zero => simp [sumLoop]
  | succ m ih =>
    show 2 * (sumLoop m + (m + 1)) = ((m : Int) + 1) * ((m + 1) + 1)
    ring_nf
    ring_nf at ih
    omega

theorem sum_to_n_a_eq_c (n : Int) : sum_to_n_a n = sum_to_n_c n := by
  unfold sum_to_n_a sum_to_n_c
  by_cases h : n ≤ 0
  · simp [h]
  · rw [if_neg h, if_neg h]
    have h2 : 2 * sumLoop n.toNat = (n.toNat : Int) * (n.toNat + 1) := sumLoop_gauss n.toNat
    have hcast : (n.toNat : Int) = n := by omega
    rw [hcast] at h2
    omega

theorem sum_to_n_b_eq_a (n : Int) : sum_to_n_b n = sum_to_n_a n := by
  induction n using sum_to_n_b.induct with
  | case1 n h => rw [sum_to_n_b, sum_to_n_a, if_pos h, if_pos h]
  | case2 h =>
    rw [sum_to_n_b, sum_to_n_a]
    norm_num
    show (1 : Int) = sumLoop (Int.toNat 1)
    simp [sumLoop]
  | case3 n h h1 ih =>
    rw [sum_to_n_b, if_neg h, if_neg h1, ih, sum_to_n_a, sum_to_n_a]
    have h2 : ¬ n - 1 ≤ 0 := by omega
    rw [if_neg h2, if_neg h]
    have h3 : n.toNat = (n - 1).toNat + 1 := by omega
    rw [h3]
    show n + sumLoop (n - 1).toNat = sumLoop (n - 1).toNat + (((n - 1).toNat : Int) + 1)
    have h4 : ((n - 1).toNat : Int) = n - 1 := by omega
    rw [h4]
    ring

/-! ## Part II: problem 5, resource CRUD subsystem

### JavaScript string and truthiness helpers -/

/-- JS truthiness of an optional string value: `undefined`/`null` and
the empty string are falsy. -/
def jsTruthyStr (o : Option String) : Bool :=
  match o with
  | none => false
  | some s => s ≠ ""

/-- Whitespace recognised by `String.prototype.trim` (ASCII subset
actually occurring in this code base). -/
def isJsSpace (c : Char) : Bool :=
  c = ' ' || c = '\t' || c = '\n' || c = '\r'

/-- JS `s.trim()`: strips leading and trailing whitespace. -/
def jsTrim (s : String) : String :=
  String.mk (((s.data.dropWhile isJsSpace).reverse.dropWhile isJsSpace).reverse)

/-- Lower-casing of a character list (Postgres `ILIKE` compares both
sides lower-cased; JS `toLowerCase` on the ASCII data used here). -/
def lowerL (s : List Char) : List Char :=
  s.map Char.toLower

/-- JS `x || dflt` on an optional numeric value: `undefined` and `0`
are falsy and select the default. -/
def jsOrNat (o : Option Nat) (dflt : Nat) : Nat :=
  match o with
  | none => dflt
  | some v => if v = 0 then dflt else v

/-- JS `x || dflt` on an optional string value: `undefined` and `""`
are falsy and select the default. -/
def jsOrStr (o : Option String) (dflt : String) : String :=
  match o with
  | none => dflt
  | some s => if s = "" then dflt else s

/-! ### SQL `LIKE` pattern matching

`ResourceModel.findAll` builds the query fragment
`name ILIKE '%search%' OR description ILIKE '%search%'`, so the store
evaluates the user-supplied search string as a SQL pattern in which
`%` matches any sequence of characters and `_` matches any single
character. -/

/-- SQL `LIKE` semantics: does pattern `p` match the whole string `s`?
`%` matches any (possibly empty) sequence, `_` any single character,
every other pattern character matches itself. -/
def likeMatch : List Char → List Char → Bool
  | [], s => s.isEmpty
  | c :: p, [] => if c = '%' then likeMatch p [] else false
  | c :: p, d :: t =>
    if c = '%' then likeMatch p (d :: t) || likeMatch (c :: p) t
    else (if c = '_' then true else c == d) && likeMatch p t
termination_by p s => (p.length, s.length)
decreasing_by
  all_goals first
    | (apply Prod.Lex.left; simp only [List.length_cons]; omega)
    | (apply Prod.Lex.right; simp only [List.length_cons]; omega)

/-- `true` iff the string contains neither of the SQL wildcard
characters `%` and `_`. -/
def noWild (s : List Char) : Bool :=
  s.all (fun c => !(c == '%') && !(c == '_'))

/-- Case-insensitive evaluation of `field ILIKE '%pat%'` as performed
by the store for the repository's search filter. -/
def ilikeContains (field pat : String) : Bool :=
  likeMatch ('%' :: lowerL pat.data ++ ['%']) (lowerL field.data)

/-! ### Data model (`src/problem_5/src/types/index.ts`) -/

/-- A row of the `resources` table.  Timestamps are abstract `Nat`
instants. -/
structure Resource where
  id : Nat
  name : String
  description : String
  status : String
  createdAt : Nat
  updatedAt : Nat
deriving DecidableEq, Repr

/-- `ResourceFilters`: query filters accepted by the list endpoint. -/
structure ResourceFilters where
  status : Option String := none
  search : Option String := none
  page : Option Nat := none
  limit : Option Nat := none
deriving DecidableEq, Repr

/-- `CreateResourceDto`: body of a create request as it reaches the
service (all fields may be absent at runtime). -/
structure CreateResourceDto where
  name : Option String := none
  description : Option String := none
  status : Option String := none
deriving DecidableEq, Repr

/-- `UpdateResourceDto`: body of an update request; all fields
optional. -/
structure UpdateResourceDto where
  name : Option String := none
  description : Option String := none
  status : Option String := none
deriving DecidableEq, Repr

/-- Pagination metadata of a list response. -/
structure PaginationMeta where
  page : Nat
  limit : Nat
  total : Nat
  totalPages : Nat
deriving DecidableEq, Repr

/-- `PaginatedResponse<Resource>`. -/
structure PaginatedResponse where
  data : List Resource
  pagination : PaginationMeta
deriving DecidableEq, Repr

/-- The relational store backing the repository: the rows of the
`resources` table. -/
abbrev Store := List Resource

/-! ### Repository layer (`src/problem_5/src/models/ResourceModel.ts`)

The store adapter executes parameterized SQL; each repository method is
embedded as the function the issued statements compute on the table
contents.  `ORDER BY "createdAt" DESC` is modelled with a (stable)
merge sort under the reflexive descending comparison. -/

/-- The `WHERE` clause built by `findAll`: `status = $k` is appended
only when `filters.status` is truthy, and the pair of `ILIKE` tests
only when `filters.search` is truthy. -/
def rowMatches (f : ResourceFilters) (r : Resource) : Bool :=
  (match f.status with
   | none => true
   | some s => if s = "" then true else r.status == s) &&
  (match f.search with
   | none => true
   | some s => if s = "" then true else ilikeContains r.name s || ilikeContains r.description s)

/-- The `ORDER BY "createdAt" DESC` comparison. -/
def byCreatedAtDesc (a b : Resource) : Bool :=
  b.createdAt ≤ a.createdAt

/-- `Math.ceil(total / limit)` on the non-negative integers produced
here. -/
def ceilFrac (total limit : Nat) : Nat :=
  (total + limit - 1) / limit

/-- `ResourceModel.findAll`: count of matching rows, then a page of
matching rows ordered by `createdAt` descending with
`LIMIT limit OFFSET (page-1)*limit`. -/
def ResourceModel.findAll (st : Store) (f : ResourceFilters) : PaginatedResponse :=
  let page := jsOrNat f.page 1
  let limit := jsOrNat f.limit 10
  let offset := (page - 1) * limit
  let matched := st.filter (rowMatches f)
  let total := matched.length
  let sorted := matched.mergeSort byCreatedAtDesc
  { data := (sorted.drop offset).take limit
    pagination := { page := page, limit := limit, total := total,
                    totalPages := ceilFrac total limit } }

/-- `ResourceModel.findById`: `SELECT * FROM resources WHERE id = $1`,
first matching row or `null`. -/
def ResourceModel.findById (st : Store) (id : Nat) : Option Resource :=
  st.find? (fun r => r.id == id)

/-- `ResourceModel.create`: inserts a row whose `status` defaults to
`'active'` for a falsy input status; the store assigns the fresh `id`
and sets both timestamps to the current instant. -/
def ResourceModel.create (st : Store) (d : CreateResourceDto) (newId now : Nat) :
    Resource × Store :=
  let r : Resource :=
    { id := newId
      name := d.name.getD ""
      description := d.description.getD ""
      status := jsOrStr d.status "active"
      createdAt := now
      updatedAt := now }
  (r, st ++ [r])

/-- The column assignments of the `UPDATE` statement built by
`ResourceModel.update`: each supplied field plus
`"updatedAt" = CURRENT_TIMESTAMP`. -/
def applyUpdate (d : UpdateResourceDto) (now : Nat) (r : Resource) : Resource :=
  { id := r.id
    name := d.name.getD r.name
    description := d.description.getD r.description
    status := d.status.getD r.status
    createdAt := r.createdAt
    updatedAt := now }

/-- `ResourceModel.update`: looks the row up first and returns `null`
with no write when absent; when no field is supplied it returns the
existing row with no write; otherwise it executes the `UPDATE` and
returns the updated row. -/
def ResourceModel.update (st : Store) (id : Nat) (d : UpdateResourceDto) (now : Nat) :
    Option Resource × Store :=
  match ResourceModel.findById st id with
  | none => (none, st)
  | some existing =>
    if d.name = none ∧ d.description = none ∧ d.status = none then
      (some existing, st)
    else
      (some (applyUpdate d now existing),
       st.map (fun r => if r.id == id then applyUpdate d now r else r))

/-- `ResourceModel.delete`: `DELETE FROM resources WHERE id = $1`;
returns whether any row was removed, together with the new table
contents. -/
def ResourceModel.delete (st : Store) (id : Nat) : Bool × Store :=
  (st.any (fun r => r.id == id), st.filter (fun r => !(r.id == id)))

/-! ### Error taxonomy (`src/problem_5/src/utils/errors.ts`) -/

/-- Errors thrown by the service layer. -/
inductive ServiceError where
  | validation (msg : String)
  | notFound (msg : String)
deriving DecidableEq, Repr

/-- The not-found message built by the service:
`Resource with id ${id} not found`. -/
def notFoundMsg (id : Nat) : String :=
  "Resource with id " ++ toString id ++ " not found"

/-! ### Service layer (`ResourceService`, `src/unnamed/part_003`) -/

/-- `ResourceService.validateCreateData`: the five checks in source
order, each throwing its own message; the first failing check wins. -/
def validateCreateData (d : CreateResourceDto) : Option String :=
  if !jsTruthyStr d.name || (jsTrim (d.name.getD "")).length == 0 then
    some "Name is required"
  else if (d.name.getD "").length > 255 then
    some "Name must be less than 255 characters"
  else if !jsTruthyStr d.description || (jsTrim (d.description.getD "")).length == 0 then
    some "Description is required"
  else if (d.description.getD "").length > 1000 then
    some "Description must be less than 1000 characters"
  else if jsTruthyStr d.status && !(d.status.getD "" == "active" || d.status.getD "" == "inactive") then
    some "Status must be either \"active\" or \"inactive\""
  else
    none

/-- `ResourceService.validateUpdateData`: per-field checks applied only
to supplied fields. -/
def validateUpdateData (d : UpdateResourceDto) : Option String :=
  match d.name with
  | some n =>
    if (jsTrim n).length == 0 then some "Name cannot be empty"
    else if n.length > 255 then some "Name must be less than 255 characters"
    else validateUpdateDescStatus d
  | none => validateUpdateDescStatus d
where
  validateUpdateDescStatus (d : UpdateResourceDto) : Option String :=
    match d.description with
    | some desc =>
      if (jsTrim desc).length == 0 then some "Description cannot be empty"
      else if desc.length > 1000 then some "Description must be less than 1000 characters"
      else validateUpdateStatus d
    | none => validateUpdateStatus d
  validateUpdateStatus (d : UpdateResourceDto) : Option String :=
    match d.status with
    | some s =>
      if !(s == "active" || s == "inactive") then
        some "Status must be either \"active\" or \"inactive\""
      else none
    | none => none

/-- `ResourceService.create`: validate, then delegate to the
repository. -/
def ResourceService.create (st : Store) (d : CreateResourceDto) (newId now : Nat) :
    Except ServiceError (Resource × Store) :=
  match validateCreateData d with
  | some m => .error (.validation m)
  | none => .ok (ResourceModel.create st d newId now)

/-- `ResourceService.findById`: delegate; absent row becomes a
`NotFoundError`. -/
def ResourceService.findById (st : Store) (id : Nat) : Except ServiceError Resource :=
  match ResourceModel.findById st id with
  | none => .error (.notFound (notFoundMsg id))
  | some r => .ok r

/-- `filters.page !== undefined && filters.page < 1`. -/
def pageOutOfRange (f : ResourceFilters) : Bool :=
  match f.page with
  | some p => decide (p < 1)
  | none => false

/-- `filters.limit !== undefined && (filters.limit < 1 || filters.limit > 100)`. -/
def limitOutOfRange (f : ResourceFilters) : Bool :=
  match f.limit with
  | some l => decide (l < 1) || decide (l > 100)
  | none => false

/-- `ResourceService.findAll`: pagination bounds are checked before the
repository (and hence the store) is touched. -/
def ResourceService.findAll (st : Store) (f : ResourceFilters) :
    Except ServiceError PaginatedResponse :=
  if pageOutOfRange f then
    .error (.validation "Page must be greater than 0")
  else if limitOutOfRange f then
    .error (.validation "Limit must be between 1 and 100")
  else
    .ok (ResourceModel.findAll st f)

/-- `ResourceService.update`: validate supplied fields, delegate, and
turn an absent row into a `NotFoundError`. -/
def ResourceService.update (st : Store) (id : Nat) (d : UpdateResourceDto) (now : Nat) :
    Except ServiceError (Resource × Store) :=
  match validateUpdateData d with
  | some m => .error (.validation m)
  | none =>
    match ResourceModel.update st id d now with
    | (none, _) => .error (.notFound (notFoundMsg id))
    | (some r, st') => .ok (r, st')

/-- `ResourceService.delete`: delegate; `false` from the repository
becomes a `NotFoundError`. -/
def ResourceService.delete (st : Store) (id : Nat) : Except ServiceError Store :=
  let res := ResourceModel.delete st id
  if res.1 then .ok res.2 else .error (.notFound (notFoundMsg id))

/-! ### API-key middleware (`src/problem_5/src/middleware/auth.ts`) -/

/-- The observable outcome of the middleware: call `next()` or throw an
`UnauthorizedError` (mapped to HTTP 401 by the error translator). -/
inductive AuthOutcome where
  | proceed
  | unauthorized (msg : String)
deriving DecidableEq, Repr

/-- The message thrown when no key is supplied. -/
def apiKeyRequiredMsg : String :=
  "API key is required. Please provide it in the X-API-Key header or apiKey query parameter."

/-- `authenticateApiKey`: skip when no key is configured, otherwise
take the key from the header, falling back to the query parameter
(JS `||`), and compare it with the configured key. -/
def authenticateApiKey (validApiKey headerKey queryKey : Option String) : AuthOutcome :=
  if !jsTruthyStr validApiKey then
    .proceed
  else
    let provided := if jsTruthyStr headerKey then headerKey else queryKey
    if !jsTruthyStr provided then
      .unauthorized apiKeyRequiredMsg
    else if provided ≠ validApiKey then
      .unauthorized "Invalid API key."
    else
      .proceed

/-! ### Central error translator (`errorHandler`) -/

/-- What the translator sees: an `AppError` carries its message and
status code (`instanceof AppError` succeeds); anything else is an
unexpected error with only a message. -/
inductive JsError where
  | app (message : String) (statusCode : Nat)
  | unexpected (message : String)
deriving DecidableEq, Repr

/-- `NotFoundError` (→ 404). -/
def NotFoundError (m : String) : JsError := .app m 404

/-- `ValidationError` (→ 400). -/
def ValidationError (m : String) : JsError := .app m 400

/-- `UnauthorizedError` (→ 401). -/
def UnauthorizedError (m : String) : JsError := .app m 401

/-- `ConflictError` (→ 409). -/
def ConflictError (m : String) : JsError := .app m 409

/-- The uniform error envelope `{ success: false, error: { message,
statusCode } }`. -/
structure ErrorBody where
  success : Bool
  message : String
  statusCode : Nat
deriving DecidableEq, Repr

/-- An HTTP error response: status line plus JSON body. -/
structure ErrorResponse where
  status : Nat
  body : ErrorBody
deriving DecidableEq, Repr

/-- `errorHandler`: a known `AppError` keeps its own status code and
message; an unexpected error becomes a 500 whose message is the raw
message outside production and `"Internal server error"` in
production. -/
def errorHandler (env : String) : JsError → ErrorResponse
  | .app m c => { status := c, body := { success := false, message := m, statusCode := c } }
  | .unexpected m =>
    { status := 500
      body := { success := false
                message := if env = "production" then "Internal server error" else m
                statusCode := 500 } }

/-! ### The spec's search predicate, for comparison with the code

The specification describes the `search` filter as a plain
case-insensitive substring test; the code routes the search string
through a SQL `LIKE` pattern instead.  The following definitions
formalise the spec's wording so the two can be compared. -/

/-- Modelled from the spec: `search` "matches case-insensitively as a
substring against name OR description".  A filter value counts as
supplied when it is truthy, as everywhere in this code base. -/
def specSearchMatches (pat field : String) : Bool :=
  decide (lowerL pat.data <:+: lowerL field.data)

/-- Modelled from the spec: the row predicate of §4.2 — exact status
match and case-insensitive substring search, combined by AND. -/
def specRowMatches (f : ResourceFilters) (r : Resource) : Bool :=
  (match f.status with
   | none => true
   | some s => if s = "" then true else r.status == s) &&
  (match f.search with
   | none => true
   | some s => if s = "" then true else specSearchMatches s r.name || specSearchMatches s r.description)

/-! ### Properties of `likeMatch` -/

theorem likeMatch_percent (s : List Char) : likeMatch ['%'] s = true := by
  induction s with
  | nil => simp [likeMatch]
  | cons d t ih => simp [likeMatch, ih]

theorem likeMatch_append_percent {p : List Char} (hw : noWild p = true) :
    ∀ s : List Char, (likeMatch (p ++ ['%']) s = true ↔ p <+: s) := by
  induction p with
  | nil =>
    intro s
    simp [likeMatch_percent, List.nil_prefix]
  | cons c p ih =>
    intro s
    have hc : ¬ c = '%' ∧ ¬ c = '_' := by
      have := hw
      simp [noWild] at this
      exact ⟨by simpa using this.1.1, by simpa using this.1.2⟩
    have hw' : noWild p = true := by
      simp [noWild] at hw ⊢
      exact hw.2
    cases s with
    | nil =>
      simp [likeMatch, hc.1]
    | cons d t =>
      rw [List.cons_append, likeMatch, if_neg hc.1, if_neg hc.2]
      simp only [Bool.and_eq_true, beq_iff_eq, ih hw', List.cons_prefix_cons]

theorem likeMatch_percent_cons (p : List Char) :
    ∀ s : List Char, (likeMatch ('%' :: p) s = true ↔ ∃ t, t <:+ s ∧ likeMatch p t = true) := by
  intro s
  induction s with
  | nil =>
    rw [likeMatch, if_pos rfl]
    constructor
    · intro h
      exact ⟨[], List.suffix_rfl, h⟩
    · rintro ⟨t, ht, h⟩
      rw [List.suffix_nil] at ht
      subst ht
      exact h
  | cons d t ih =>
    rw [likeMatch, if_pos rfl]
    simp only [Bool.or_eq_true, ih]
    constructor
    · rintro (h | ⟨u, hu, h⟩)
      · exact ⟨d :: t, List.suffix_rfl, h⟩
      · exact ⟨u, hu.trans (List.suffix_cons d t), h⟩
    · rintro ⟨u, hu, h⟩
      rcases List.suffix_cons_iff.1 hu with rfl | hu'
      · exact Or.inl h
      · exact Or.inr ⟨u, hu', h⟩

theorem likeMatch_infix {p : List Char} (hw : noWild p = true) (s : List Char) :
    likeMatch ('%' :: p ++ ['%']) s = true ↔ p <:+: s := by
  rw [List.cons_append, likeMatch_percent_cons]
  constructor
  · rintro ⟨t, ⟨u, rfl⟩, h⟩
    rw [likeMatch_append_percent hw] at h
    obtain ⟨v, rfl⟩ := h
    exact ⟨u, v, by simp⟩
  · rintro ⟨u, v, rfl⟩
    exact ⟨p ++ v, ⟨u, by simp⟩, (likeMatch_append_percent hw (p ++ v)).2 ⟨v, rfl⟩⟩

theorem toLower_not_wildcard (c : Char) (h1 : ¬ c = '%') (h2 : ¬ c = '_') :
    ¬ c.toLower = '%' ∧ ¬ c.toLower = '_' := by
  unfold Char.toLower
  by_cases h : c.toNat ≥ 65 ∧ c.toNat ≤ 90
  · rw [if_pos h]
    obtain ⟨hl, hu⟩ := h
    have hge : c.toNat + 32 ≥ 97 := by omega
    have hle : c.toNat + 32 ≤ 122 := by omega
    set m := c.toNat + 32 with hm
    clear_value m
    clear hm hl hu h1 h2
    interval_cases m <;> exact ⟨by decide, by decide⟩
  · rw [if_neg h]
    exact ⟨h1, h2⟩

theorem noWild_lowerL {s : List Char} (h : noWild s = true) : noWild (lowerL s) = true := by
  simp only [noWild, lowerL, List.all_map, List.all_eq_true] at h ⊢
  intro c hc
  have h1 := h c hc
  simp only [Bool.and_eq_true, Bool.not_eq_true', beq_eq_false_iff_ne, ne_eq] at h1
  simp only [Function.comp_apply, Bool.and_eq_true, Bool.not_eq_true', beq_eq_false_iff_ne, ne_eq]
  exact toLower_not_wildcard c h1.1 h1.2

/-- For a search string without SQL wildcards, the `ILIKE '%pat%'`
evaluation coincides with the spec's case-insensitive substring
test. -/
theorem ilikeContains_eq_spec {pat : String} (h : noWild pat.data = true) (field : String) :
    ilikeContains field pat = specSearchMatches pat field := by
  unfold ilikeContains specSearchMatches
  have h2 := likeMatch_infix (noWild_lowerL h) (lowerL field.data)
  by_cases hp : lowerL pat.data <:+: lowerL field.data
  · rw [h2.2 hp]
    exact (decide_eq_true hp).symm
  · have hf : likeMatch ('%' :: lowerL pat.data ++ ['%']) (lowerL field.data) = false :=
      Bool.eq_false_iff.2 (fun hcon => hp (h2.1 hcon))
    rw [hf]
    exact (decide_eq_false hp).symm

/-! ## Claim theorems -/

/-- C9: for every integer `n` the three `sum_to_n` implementations
agree, and each equals `n*(n+1)/2` for `n ≥ 1` and `0` for `n ≤ 0`. -/
theorem sum_to_n_agree (n : Int) :
    sum_to_n_a n = sum_to_n_b n ∧ sum_to_n_b n = sum_to_n_c n ∧
      sum_to_n_c n = (if 1 ≤ n then n * (n + 1) / 2 else 0) := by
  refine ⟨(sum_to_n_b_eq_a n).symm, ?_, ?_⟩
  · rw [sum_to_n_b_eq_a n, sum_to_n_a_eq_c n]
  · unfold sum_to_n_c
    by_cases h : n ≤ 0
    · rw [if_pos h, if_neg (by omega)]
    · rw [if_neg h, if_pos (by omega)]

/-- C8: the central error translator keeps an `AppError`'s own status
code and message in the uniform envelope; an unexpected error becomes a
500 whose message is the raw message outside production and
`"Internal server error"` in production; the four taxonomy kinds carry
their associated codes 404/400/401/409. -/
theorem errorHandler_spec :
    (∀ env m c, errorHandler env (.app m c) =
        { status := c, body := { success := false, message := m, statusCode := c } })
    ∧ (∀ env m, env ≠ "production" → errorHandler env (.unexpected m) =
        { status := 500, body := { success := false, message := m, statusCode := 500 } })
    ∧ (∀ m, errorHandler "production" (.unexpected m) =
        { status := 500, body := { success := false, message := "Internal server error",
                                   statusCode := 500 } })
    ∧ (∀ env m, errorHandler env (NotFoundError m) =
        { status := 404, body := { success := false, message := m, statusCode := 404 } })
    ∧ (∀ env m, errorHandler env (ValidationError m) =
        { status := 400, body := { success := false, message := m, statusCode := 400 } })
    ∧ (∀ env m, errorHandler env (UnauthorizedError m) =
        { status := 401, body := { success := false, message := m, statusCode := 401 } })
    ∧ (∀ env m, errorHandler env (ConflictError m) =
        { status := 409, body := { success := false, message := m, statusCode := 409 } }) := by
  refine ⟨fun env m c => rfl, fun env m h => ?_, fun m => ?_,
    fun env m => rfl, fun env m => rfl, fun env m => rfl, fun env m => rfl⟩
  · simp [errorHandler, h]
  · simp [errorHandler]

/-- Witness for C8 at concrete inputs. -/
theorem errorHandler_spec_witness :
    errorHandler "development" (.unexpected "boom") =
      { status := 500, body := { success := false, message := "boom", statusCode := 500 } } :=
  errorHandler_spec.2.1 "development" "boom" (by decide)

/-- C7: with a (truthy) key configured, a missing key yields a 401
`UnauthorizedError` whose message contains "API key is required", a
differing key yields one whose message contains "Invalid API key", and
a matching key proceeds; with no truthy key configured the middleware
skips authentication and every request proceeds. -/
theorem authenticateApiKey_spec (cfg hdr q : Option String) :
    (jsTruthyStr cfg = false → authenticateApiKey cfg hdr q = .proceed)
    ∧ (jsTruthyStr cfg = true →
        (jsTruthyStr (if jsTruthyStr hdr then hdr else q) = false →
            authenticateApiKey cfg hdr q = .unauthorized apiKeyRequiredMsg
            ∧ "API key is required".data <:+: apiKeyRequiredMsg.data)
        ∧ ((if jsTruthyStr hdr then hdr else q) ≠ cfg →
            jsTruthyStr (if jsTruthyStr hdr then hdr else q) = true →
            authenticateApiKey cfg hdr q = .unauthorized "Invalid API key."
            ∧ "Invalid API key".data <:+: "Invalid API key.".data)
        ∧ ((if jsTruthyStr hdr then hdr else q) = cfg →
            authenticateApiKey cfg hdr q = .proceed)) := by
  constructor
  · intro h
    unfold authenticateApiKey
    rw [h]
    rfl
  · intro hcfg
    refine ⟨fun hprov => ⟨?_, by decide⟩, fun hne hprov => ⟨?_, by decide⟩, fun heq => ?_⟩
    · simp [authenticateApiKey, hcfg, hprov]
    · simp [authenticateApiKey, hcfg, hprov, hne]
    · simp [authenticateApiKey, heq, hcfg]

/-- Witness for C7: concrete configured key, all three outcomes. -/
theorem authenticateApiKey_spec_witness :
    authenticateApiKey (some "k") none none = .unauthorized apiKeyRequiredMsg
    ∧ authenticateApiKey (some "k") (some "bad") none = .unauthorized "Invalid API key."
    ∧ authenticateApiKey (some "k") (some "k") none = .proceed
    ∧ authenticateApiKey none (some "anything") none = .proceed :=
  ⟨((authenticateApiKey_spec (some "k") none none).2 (by decide)).1 (by decide) |>.1,
   ((authenticateApiKey_spec (some "k") (some "bad") none).2 (by decide)).2.1
     (by decide) (by decide) |>.1,
   ((authenticateApiKey_spec (some "k") (some "k") none).2 (by decide)).2.2 (by decide),
   (authenticateApiKey_spec none (some "anything") none).1 (by decide)⟩

/-- C1 counterexample: for an existing row and an update supplying no
recognized field, the repository returns the stored row with its OLD
`updatedAt` (0), not the current time (5), and performs no write — the
claimed advance of `updatedAt` does not happen. -/
theorem update_noop_counterexample :
    (ResourceModel.update
        [{ id := 1, name := "n", description := "d", status := "active",
           createdAt := 0, updatedAt := 0 }] 1 {} 5).1
      = some { id := 1, name := "n", description := "d", status := "active",
               createdAt := 0, updatedAt := 0 }
    ∧ ((ResourceModel.update
        [{ id := 1, name := "n", description := "d", status := "active",
           createdAt := 0, updatedAt := 0 }] 1 {} 5).1.map Resource.updatedAt ≠ some 5)
    ∧ (ResourceModel.update
        [{ id := 1, name := "n", description := "d", status := "active",
           createdAt := 0, updatedAt := 0 }] 1 {} 5).2
      = [{ id := 1, name := "n", description := "d", status := "active",
           createdAt := 0, updatedAt := 0 }] := by
  refine ⟨by decide, by decide, by decide⟩

/-- C1 amended: when the row exists and no recognized field is
supplied, `update` returns the existing row unchanged — `updatedAt`
keeps its prior value — and the store is not written at all. -/
theorem update_noop_touchless (st : Store) (id : Nat) (r : Resource) (now : Nat)
    (d : UpdateResourceDto)
    (hfind : ResourceModel.findById st id = some r)
    (hn : d.name = none) (hd : d.description = none) (hs : d.status = none) :
    ResourceModel.update st id d now = (some r, st) := by
  simp only [ResourceModel.update, hfind]
  rw [if_pos ⟨hn, hd, hs⟩]

/-- Witness for C1's amended theorem at a concrete store. -/
theorem update_noop_touchless_witness :
    ResourceModel.findById
        [{ id := 1, name := "n", description := "d", status := "active",
           createdAt := 0, updatedAt := 3 }] 1
      = some { id := 1, name := "n", description := "d", status := "active",
               createdAt := 0, updatedAt := 3 }
    ∧ ResourceModel.update
        [{ id := 1, name := "n", description := "d", status := "active",
           createdAt := 0, updatedAt := 3 }] 1 {} 9
      = (some { id := 1, name := "n", description := "d", status := "active",
                createdAt := 0, updatedAt := 3 },
         [{ id := 1, name := "n", description := "d", status := "active",
            createdAt := 0, updatedAt := 3 }]) :=
  ⟨by decide, update_noop_touchless _ 1 _ 9 {} (by decide) rfl rfl rfl⟩

/-- C6: for an existing row and an update supplying at least one field,
`update` returns the row with exactly the supplied fields and
`updatedAt` replaced; `id`, `createdAt` and every unsupplied field keep
their prior values, and rows with other ids survive in the store. -/
theorem update_supplied_fields_frame (st : Store) (id : Nat) (d : UpdateResourceDto) (now : Nat)
    (r : Resource)
    (hfind : ResourceModel.findById st id = some r)
    (hsupplied : ¬ (d.name = none ∧ d.description = none ∧ d.status = none)) :
    (ResourceModel.update st id d now).1 = some (applyUpdate d now r)
    ∧ (applyUpdate d now r).id = r.id
    ∧ (applyUpdate d now r).createdAt = r.createdAt
    ∧ (applyUpdate d now r).updatedAt = now
    ∧ (d.name = none → (applyUpdate d now r).name = r.name)
    ∧ (∀ x, d.name = some x → (applyUpdate d now r).name = x)
    ∧ (d.description = none → (applyUpdate d now r).description = r.description)
    ∧ (∀ x, d.description = some x → (applyUpdate d now r).description = x)
    ∧ (d.status = none → (applyUpdate d now r).status = r.status)
    ∧ (∀ x, d.status = some x → (applyUpdate d now r).status = x)
    ∧ (ResourceModel.update st id d now).2
        = st.map (fun x => if x.id == id then applyUpdate d now x else x)
    ∧ (∀ x ∈ st, x.id ≠ id → x ∈ (ResourceModel.update st id d now).2) := by
  have hupd : ResourceModel.update st id d now
      = (some (applyUpdate d now r),
         st.map (fun x => if x.id == id then applyUpdate d now x else x)) := by
    simp only [ResourceModel.update, hfind]
    rw [if_neg hsupplied]
  refine ⟨by rw [hupd], rfl, rfl, rfl,
    fun h => by simp [applyUpdate, h],
    fun x h => by simp [applyUpdate, h],
    fun h => by simp [applyUpdate, h],
    fun x h => by simp [applyUpdate, h],
    fun h => by simp [applyUpdate, h],
    fun x h => by simp [applyUpdate, h],
    by rw [hupd], ?_⟩
  intro x hx hne
  rw [hupd]
  refine List.mem_map.2 ⟨x, hx, ?_⟩
  rw [if_neg (by simpa using hne)]

/-- Witness for C6 at a concrete store: update only the status. -/
theorem update_supplied_fields_frame_witness :
    (ResourceModel.update
        [{ id := 1, name := "n", description := "d", status := "active",
           createdAt := 0, updatedAt := 0 }] 1 { status := some "inactive" } 7).1
      = some (applyUpdate { status := some "inactive" } 7
          { id := 1, name := "n", description := "d", status := "active",
            createdAt := 0, updatedAt := 0 })
    ∧ applyUpdate { status := some "inactive" } 7
          { id := 1, name := "n", description := "d", status := "active",
            createdAt := 0, updatedAt := 0 }
      = { id := 1, name := "n", description := "d", status := "inactive",
          createdAt := 0, updatedAt := 7 } :=
  ⟨(update_supplied_fields_frame _ 1 { status := some "inactive" } 7 _ (by decide) (by decide)).1,
   by decide⟩

/-- C5: for an id absent from the store, the service's `findById`,
`update` (with valid data) and `delete` all fail with a
`NotFoundError` whose message contains the requested id; the delete
leaves the store untouched, so a second delete of the same id fails
identically. -/
theorem service_notFound_spec (st : Store) (id : Nat) (now : Nat)
    (habs : ∀ r ∈ st, r.id ≠ id) :
    ResourceService.findById st id = .error (.notFound (notFoundMsg id))
    ∧ (∀ d : UpdateResourceDto, validateUpdateData d = none →
        ResourceService.update st id d now = .error (.notFound (notFoundMsg id)))
    ∧ ResourceService.delete st id = .error (.notFound (notFoundMsg id))
    ∧ ResourceModel.delete st id = (false, st)
    ∧ ResourceService.delete (ResourceModel.delete st id).2 id
        = .error (.notFound (notFoundMsg id))
    ∧ (toString id).data <:+: (notFoundMsg id).data := by
  have hfind : ResourceModel.findById st id = none := by
    unfold ResourceModel.findById
    exact List.find?_eq_none.2 (fun r hr => by simp [habs r hr])
  have hany : st.any (fun r => r.id == id) = false :=
    List.any_eq_false.2 (fun r hr => by simp [habs r hr])
  have hfil : st.filter (fun r => !(r.id == id)) = st :=
    List.filter_eq_self.2 (fun r hr => by simp [habs r hr])
  have hdel : ResourceModel.delete st id = (false, st) := by
    unfold ResourceModel.delete
    rw [hany, hfil]
  have hsdel : ResourceService.delete st id = .error (.notFound (notFoundMsg id)) := by
    unfold ResourceService.delete
    rw [hdel]
    rfl
  refine ⟨?_, ?_, hsdel, hdel, ?_, ?_⟩
  · unfold ResourceService.findById
    rw [hfind]
  · intro d hd
    unfold ResourceService.update
    rw [hd]
    unfold ResourceModel.update
    rw [hfind]
  · rw [hdel]
    exact hsdel
  · exact ⟨"Resource with id ".data, " not found".data, by simp [notFoundMsg]⟩

/-- Witness for C5: id 9 absent from a one-row store. -/
theorem service_notFound_spec_witness :
    ResourceService.findById
        [{ id := 1, name := "n", description := "d", status := "active",
           createdAt := 0, updatedAt := 0 }] 9
      = .error (.notFound (notFoundMsg 9))
    ∧ ResourceService.delete
        [{ id := 1, name := "n", description := "d", status := "active",
           createdAt := 0, updatedAt := 0 }] 9
      = .error (.notFound (notFoundMsg 9))
    ∧ ResourceService.update
        [{ id := 1, name := "n", description := "d", status := "active",
           createdAt := 0, updatedAt := 0 }] 9 { name := some "x" } 4
      = .error (.notFound (notFoundMsg 9)) := by
  have h := service_notFound_spec
    [{ id := 1, name := "n", description := "d", status := "active",
       createdAt := 0, updatedAt := 0 }] 9 4 (by decide)
  exact ⟨h.1, h.2.2.1, h.2.1 { name := some "x" } (by decide)⟩

/-- C10: a create input whose `status` is the empty string behaves
exactly as if `status` were omitted: the status enum rule is skipped
(validation is unchanged), and on success the persisted resource has
status `"active"` and is in the new store. -/
theorem create_empty_status_spec (st : Store) (d : CreateResourceDto) (newId now : Nat)
    (hst : d.status = some "") :
    validateCreateData d = validateCreateData { d with status := none }
    ∧ ResourceService.create st d newId now
        = ResourceService.create st { d with status := none } newId now
    ∧ (∀ r st', ResourceService.create st d newId now = .ok (r, st') →
        r.status = "active" ∧ r ∈ st') := by
  have hval : validateCreateData d = validateCreateData { d with status := none } := by
    unfold validateCreateData
    simp [hst, jsTruthyStr]
  have hcr : ResourceModel.create st d newId now
      = ResourceModel.create st { d with status := none } newId now := by
    unfold ResourceModel.create
    simp [hst, jsOrStr]
  have hsvc : ResourceService.create st d newId now
      = ResourceService.create st { d with status := none } newId now := by
    unfold ResourceService.create
    rw [hval, hcr]
  refine ⟨hval, hsvc, ?_⟩
  intro r st' h
  unfold ResourceService.create at h
  cases hv : validateCreateData d with
  | some m => rw [hv] at h; exact absurd h (by simp)
  | none =>
    rw [hv] at h
    injection h with h3
    have hr : (ResourceModel.create st d newId now).1 = r := congrArg Prod.fst h3
    have hsnd : (ResourceModel.create st d newId now).2 = st' := congrArg Prod.snd h3
    refine ⟨?_, ?_⟩
    · rw [← hr]
      simp [ResourceModel.create, hst, jsOrStr]
    · rw [← hr, ← hsnd]
      simp [ResourceModel.create]

/-- Witness for C10 at a concrete input. -/
theorem create_empty_status_spec_witness :
    validateCreateData { name := some "n", description := some "d", status := some "" }
      = validateCreateData { name := some "n", description := some "d", status := none }
    ∧ ResourceService.create [] { name := some "n", description := some "d", status := some "" } 1 2
        = ResourceService.create [] { name := some "n", description := some "d", status := none } 1 2 := by
  have h := create_empty_status_spec []
    { name := some "n", description := some "d", status := some "" } 1 2 rfl
  exact ⟨h.1, h.2.1⟩

/-! ### The five create-validation rules, as named predicates -/

/-- Rule 1 condition: `!data.name || data.name.trim().length === 0`. -/
def createNameMissing (d : CreateResourceDto) : Prop :=
  (!jsTruthyStr d.name || (jsTrim (d.name.getD "")).length == 0) = true

/-- Rule 2 condition: `data.name.length > 255`. -/
def createNameTooLong (d : CreateResourceDto) : Prop :=
  (d.name.getD "").length > 255

/-- Rule 3 condition: `!data.description || data.description.trim().length === 0`. -/
def createDescMissing (d : CreateResourceDto) : Prop :=
  (!jsTruthyStr d.description || (jsTrim (d.description.getD "")).length == 0) = true

/-- Rule 4 condition: `data.description.length > 1000`. -/
def createDescTooLong (d : CreateResourceDto) : Prop :=
  (d.description.getD "").length > 1000

/-- Rule 5 condition: `data.status && !['active','inactive'].includes(data.status)`. -/
def createStatusInvalid (d : CreateResourceDto) : Prop :=
  (jsTruthyStr d.status && !(d.status.getD "" == "active" || d.status.getD "" == "inactive")) = true

instance (d : CreateResourceDto) : Decidable (createNameMissing d) := by
  unfold createNameMissing; infer_instance

instance (d : CreateResourceDto) : Decidable (createNameTooLong d) := by
  unfold createNameTooLong; infer_instance

instance (d : CreateResourceDto) : Decidable (createDescMissing d) := by
  unfold createDescMissing; infer_instance

instance (d : CreateResourceDto) : Decidable (createDescTooLong d) := by
  unfold createDescTooLong; infer_instance

instance (d : CreateResourceDto) : Decidable (createStatusInvalid d) := by
  unfold createStatusInvalid; infer_instance

/-- C4: create validation fails on the first violated rule, in the
order name presence → name length → description presence → description
length → status enum, each with its own message; a 255-character name
passes the length rule while a 256-character one fails it with a
message containing "255". -/
theorem validateCreateData_spec :
    (∀ d : CreateResourceDto,
      (createNameMissing d → validateCreateData d = some "Name is required")
      ∧ (¬ createNameMissing d → createNameTooLong d →
          validateCreateData d = some "Name must be less than 255 characters")
      ∧ (¬ createNameMissing d → ¬ createNameTooLong d → createDescMissing d →
          validateCreateData d = some "Description is required")
      ∧ (¬ createNameMissing d → ¬ createNameTooLong d → ¬ createDescMissing d →
          createDescTooLong d →
          validateCreateData d = some "Description must be less than 1000 characters")
      ∧ (¬ createNameMissing d → ¬ createNameTooLong d → ¬ createDescMissing d →
          ¬ createDescTooLong d → createStatusInvalid d →
          validateCreateData d = some "Status must be either \"active\" or \"inactive\"")
      ∧ (¬ createNameMissing d → ¬ createNameTooLong d → ¬ createDescMissing d →
          ¬ createDescTooLong d → ¬ createStatusInvalid d →
          validateCreateData d = none))
    ∧ validateCreateData
        { name := some (String.mk (List.replicate 255 'a')),
          description := some "d", status := none } = none
    ∧ validateCreateData
        { name := some (String.mk (List.replicate 256 'a')),
          description := some "d", status := none }
        = some "Name must be less than 255 characters"
    ∧ "255".data <:+: "Name must be less than 255 characters".data := by
  refine ⟨?_, by decide, by decide, by decide⟩
  intro d
  unfold createNameMissing createNameTooLong createDescMissing createDescTooLong
    createStatusInvalid
  refine ⟨?_, ?_, ?_, ?_, ?_, ?_⟩
  · intro h1
    unfold validateCreateData
    rw [if_pos h1]
  · intro h1 h2
    unfold validateCreateData
    rw [if_neg h1, if_pos h2]
  · intro h1 h2 h3
    unfold validateCreateData
    rw [if_neg h1, if_neg h2, if_pos h3]
  · intro h1 h2 h3 h4
    unfold validateCreateData
    rw [if_neg h1, if_neg h2, if_neg h3, if_pos h4]
  · intro h1 h2 h3 h4 h5
    unfold validateCreateData
    rw [if_neg h1, if_neg h2, if_neg h3, if_neg h4, if_pos h5]
  · intro h1 h2 h3 h4 h5
    unfold validateCreateData
    rw [if_neg h1, if_neg h2, if_neg h3, if_neg h4, if_neg h5]

/-- C3: the service's `findAll` rejects `page < 1` and
`limit ∉ [1,100]` with the corresponding `ValidationError` before any
repository work — the result is then independent of the store — and
otherwise delegates to the repository. -/
theorem serviceFindAll_validates (f : ResourceFilters) (st : Store) :
    (pageOutOfRange f = true →
        ResourceService.findAll st f = .error (.validation "Page must be greater than 0"))
    ∧ (pageOutOfRange f = false → limitOutOfRange f = true →
        ResourceService.findAll st f = .error (.validation "Limit must be between 1 and 100"))
    ∧ (pageOutOfRange f = false → limitOutOfRange f = false →
        ResourceService.findAll st f = .ok (ResourceModel.findAll st f))
    ∧ ((pageOutOfRange f = true ∨ limitOutOfRange f = true) →
        ∀ st' : Store, ResourceService.findAll st f = ResourceService.findAll st' f)
    ∧ (∀ p, f.page = some p → (pageOutOfRange f = true ↔ p < 1))
    ∧ (∀ l, f.limit = some l → (limitOutOfRange f = true ↔ (l < 1 ∨ l > 100))) := by
  refine ⟨?_, ?_, ?_, ?_, ?_, ?_⟩
  · intro h
    unfold ResourceService.findAll
    rw [h]
    rfl
  · intro h1 h2
    unfold ResourceService.findAll
    rw [h1, h2]
    rfl
  · intro h1 h2
    unfold ResourceService.findAll
    rw [h1, h2]
    rfl
  · intro h st'
    unfold ResourceService.findAll
    rcases h with h | h
    · rw [h]
      rfl
    · cases hp : pageOutOfRange f
      · rw [h]
        rfl
      · rfl
  · intro p hp
    unfold pageOutOfRange
    rw [hp]
    simp
  · intro l hl
    unfold limitOutOfRange
    rw [hl]
    simp

/-- Witness for C3: `page=0`, `limit=0`, `limit=101` rejected;
`page=1&limit=1` and `limit=100` accepted. -/
theorem serviceFindAll_validates_witness :
    ResourceService.findAll [] { page := some 0 }
      = .error (.validation "Page must be greater than 0")
    ∧ ResourceService.findAll [] { limit := some 0 }
      = .error (.validation "Limit must be between 1 and 100")
    ∧ ResourceService.findAll [] { limit := some 101 }
      = .error (.validation "Limit must be between 1 and 100")
    ∧ ResourceService.findAll [] { page := some 1, limit := some 1 }
      = .ok (ResourceModel.findAll [] { page := some 1, limit := some 1 })
    ∧ ResourceService.findAll [] { limit := some 100 }
      = .ok (ResourceModel.findAll [] { limit := some 100 }) :=
  ⟨(serviceFindAll_validates { page := some 0 } []).1 (by decide),
   (serviceFindAll_validates { limit := some 0 } []).2.1 (by decide) (by decide),
   (serviceFindAll_validates { limit := some 101 } []).2.1 (by decide) (by decide),
   (serviceFindAll_validates { page := some 1, limit := some 1 } []).2.2.1
     (by decide) (by decide),
   (serviceFindAll_validates { limit := some 100 } []).2.2.1 (by decide) (by decide)⟩

/-! ### Support lemmas for the `findAll` specification -/

theorem jsOrNat_pos (o : Option Nat) (dflt : Nat) (h : 0 < dflt) : 0 < jsOrNat o dflt := by
  unfold jsOrNat
  cases o with
  | none => exact h
  | some v =>
    show 0 < if v = 0 then dflt else v
    by_cases hv : v = 0
    · rw [if_pos hv]
      exact h
    · rw [if_neg hv]
      omega

theorem ceilFrac_le_iff (t l k : Nat) (hl : 0 < l) : ceilFrac t l ≤ k ↔ t ≤ k * l := by
  unfold ceilFrac
  rw [Nat.div_le_iff_le_mul_add_pred hl, Nat.mul_comm l k]
  constructor <;> (intro h; generalize hkl : k * l = m at *; omega)

theorem byCreatedAtDesc_trans (a b c : Resource) (h1 : byCreatedAtDesc a b = true)
    (h2 : byCreatedAtDesc b c = true) : byCreatedAtDesc a c = true := by
  unfold byCreatedAtDesc at *
  simp only [decide_eq_true_eq] at *
  omega

theorem byCreatedAtDesc_total (a b : Resource) :
    (byCreatedAtDesc a b || byCreatedAtDesc b a) = true := by
  unfold byCreatedAtDesc
  simp only [Bool.or_eq_true, decide_eq_true_eq]
  omega

unseal likeMatch in
/-- C2 counterexample: with store `[{name := "x", ...}]` and search
string `"_"`, the code counts the row as a match (`_` is a SQL
wildcard matching the single character `x`), while the claimed
case-insensitive-substring predicate matches no row; so `total` is not
the count of rows matching the spec's predicate. -/
theorem findAll_substring_counterexample :
    (ResourceModel.findAll
        [{ id := 1, name := "x", description := "y", status := "active",
           createdAt := 0, updatedAt := 0 }]
        { search := some "_" }).pagination.total = 1
    ∧ List.countP
        (fun r => specRowMatches { search := some "_" } r)
        [{ id := 1, name := "x", description := "y", status := "active",
           createdAt := 0, updatedAt := 0 }] = 0 := by
  constructor
  · decide
  · decide

/-- C2 amended: for every store and filter combination, `findAll`
returns `total` = count of rows matching the status/search predicates
(ignoring pagination), at most `limit` rows, all matching, ordered by
`createdAt` descending, obtained by skipping `(page-1)*limit` matching
rows; `totalPages` is the ceiling of `total/limit`; the search
predicate is the SQL pattern `ILIKE '%search%'` (so `%` and `_` act as
wildcards), which coincides with the spec's case-insensitive substring
test whenever the search string contains no wildcard character; status
and search are combined by AND. -/
theorem findAll_spec (st : Store) (f : ResourceFilters) :
    (ResourceModel.findAll st f).pagination.page = jsOrNat f.page 1
    ∧ (ResourceModel.findAll st f).pagination.limit = jsOrNat f.limit 10
    ∧ (ResourceModel.findAll st f).pagination.total = st.countP (rowMatches f)
    ∧ (ResourceModel.findAll st f).data.length ≤ jsOrNat f.limit 10
    ∧ (∀ r ∈ (ResourceModel.findAll st f).data, rowMatches f r = true)
    ∧ List.Pairwise (fun a b => b.createdAt ≤ a.createdAt) (ResourceModel.findAll st f).data
    ∧ (ResourceModel.findAll st f).data
        = (((st.filter (rowMatches f)).mergeSort byCreatedAtDesc).drop
            ((jsOrNat f.page 1 - 1) * jsOrNat f.limit 10)).take (jsOrNat f.limit 10)
    ∧ (∀ k, (ResourceModel.findAll st f).pagination.totalPages ≤ k
          ↔ (ResourceModel.findAll st f).pagination.total ≤ k * jsOrNat f.limit 10)
    ∧ (∀ s, f.search = some s → noWild s.data = true →
        ∀ r, rowMatches f r = specRowMatches f r)
    ∧ (f.search = none → ∀ r, rowMatches f r = specRowMatches f r) := by
  refine ⟨rfl, rfl, (List.countP_eq_length_filter _ _).symm, List.length_take_le _ _,
    ?_, ?_, rfl, ?_, ?_, ?_⟩
  · intro r hr
    have h1 : r ∈ ((st.filter (rowMatches f)).mergeSort byCreatedAtDesc).drop
        ((jsOrNat f.page 1 - 1) * jsOrNat f.limit 10) := List.mem_of_mem_take hr
    have h2 : r ∈ (st.filter (rowMatches f)).mergeSort byCreatedAtDesc :=
      List.mem_of_mem_drop h1
    have h3 : r ∈ st.filter (rowMatches f) :=
      (List.mergeSort_perm (st.filter (rowMatches f)) byCreatedAtDesc).mem_iff.1 h2
    exact (List.mem_filter.1 h3).2
  · have hs := @List.sorted_mergeSort Resource byCreatedAtDesc
      byCreatedAtDesc_trans byCreatedAtDesc_total (st.filter (rowMatches f))
    have hsub : (((st.filter (rowMatches f)).mergeSort byCreatedAtDesc).drop
          ((jsOrNat f.page 1 - 1) * jsOrNat f.limit 10)).take (jsOrNat f.limit 10)
        |>.Sublist ((st.filter (rowMatches f)).mergeSort byCreatedAtDesc) :=
      (List.take_sublist _ _).trans (List.drop_sublist _ _)
    have hp := List.Pairwise.sublist hsub hs
    exact hp.imp (fun h => of_decide_eq_true h)
  · intro k
    have hl : 0 < jsOrNat f.limit 10 := jsOrNat_pos _ _ (by omega)
    exact ceilFrac_le_iff _ _ k hl
  · intro s hs hw r
    unfold rowMatches specRowMatches
    simp only [hs]
    by_cases hse : s = ""
    · simp [hse]
    · rw [if_neg hse, if_neg hse,
        ilikeContains_eq_spec hw r.name, ilikeContains_eq_spec hw r.description]
  · intro h r
    unfold rowMatches specRowMatches
    simp only [h]

/-- Witness for C2's amended theorem at a concrete store and filter
(status and wildcard-free search combined). -/
theorem findAll_spec_witness :
    rowMatches { status := some "active", search := some "a" }
        { id := 1, name := "Apple", description := "fruit", status := "active",
          createdAt := 5, updatedAt := 5 }
      = specRowMatches { status := some "active", search := some "a" }
        { id := 1, name := "Apple", description := "fruit", status := "active",
          createdAt := 5, updatedAt := 5 }
    ∧ ((ResourceModel.findAll
          [{ id := 1, name := "Apple", description := "fruit", status := "active",
             createdAt := 5, updatedAt := 5 }]
          { status := some "active", search := some "a" }).pagination.totalPages ≤ 1
        ↔ (ResourceModel.findAll
          [{ id := 1, name := "Apple", description := "fruit", status := "active",
             createdAt := 5, updatedAt := 5 }]
          { status := some "active", search := some "a" }).pagination.total
            ≤ 1 * jsOrNat (ResourceFilters.limit { status := some "active", search := some "a" }) 10) :=
  ⟨(findAll_spec
      [{ id := 1, name := "Apple", description := "fruit", status := "active",
         createdAt := 5, updatedAt := 5 }]
      { status := some "active", search := some "a" }).2.2.2.2.2.2.2.2.1 "a" rfl (by decide)
      { id := 1, name := "Apple", description := "fruit", status := "active",
        createdAt := 5, updatedAt := 5 },
   (findAll_spec
      [{ id := 1, name := "Apple", description := "fruit", status := "active",
         createdAt := 5, updatedAt := 5 }]
      { status := some "active", search := some "a" }).2.2.2.2.2.2.2.1 1⟩

/-- Witness for C4 at concrete inputs: missing name fires rule 1, and
an overlong name with missing description fires rule 2 (first-violation
order). -/
theorem validateCreateData_spec_witness :
    validateCreateData { name := none, description := some "d", status := none }
      = some "Name is required"
    ∧ validateCreateData
        { name := some (String.mk (List.replicate 256 'a')), description := none, status := none }
      = some "Name must be less than 255 characters" :=
  ⟨(validateCreateData_spec.1 { name := none, description := some "d", status := none }).1
      (by decide),
   (validateCreateData_spec.1
      { name := some (String.mk (List.replicate 256 'a')), description := none,
        status := none }).2.1 (by decide) (by decide)⟩
